import Mathlib

/-!
Verification of the Manim MCP render server (`docker/manim-mcp/server.py`).

The render job core is embedded shallowly: every helper below mirrors a
specific code path of `ManimMCPServer`.  The outcome of the external
`manim` subprocess, the state of the artifact directory tree, and the
result of reading the located output file are supplied through an
explicit `RenderEnv` value, so `render_animation` is a total function of
the request fields and that environment.  Totality of the Lean function
models the Python method's top-level `try/except` (it never raises).
-/

namespace ManimMCP

/-! ## String utilities

Python substring tests (`'x' in s`), `str.replace`, `pathlib` basenames
and stems are modelled on `List Char`. -/

/-- Model of Python `str.replace` restricted to `fuel` scan steps; with
`fuel = s.length` it performs the full left-to-right replacement of every
occurrence of `pat`. -/
def replaceGo (pat repl : List Char) : Nat → List Char → List Char
  | _, [] => []
  | 0, s => s
  | fuel + 1, c :: rest =>
    if pat <+: (c :: rest) then
      repl ++ replaceGo pat repl fuel ((c :: rest).drop pat.length)
    else
      c :: replaceGo pat repl fuel rest

/-- Model of Python `s.replace(pat, repl)` (all occurrences, left to right). -/
def replaceStr (s pat repl : String) : String :=
  String.mk (replaceGo pat.data repl.data s.data.length s.data)

/-- Characters of the final `/`-separated component of a path, modelling
`pathlib.PurePath.name`. -/
def basename_chars (l : List Char) : List Char :=
  l.foldl (fun acc c => if c = '/' then [] else acc ++ [c]) []

/-- Final path component as a string. -/
def basename (p : String) : String := String.mk (basename_chars p.data)

/-- Model of `pathlib.PurePath.stem`: the basename with its last dot
suffix removed, where a leading or trailing dot carries no suffix. -/
def stem_of (p : String) : String :=
  let name := basename_chars p.data
  match name.reverse.findIdx? (· = '.') with
  | none => String.mk name
  | some j =>
    let i := name.length - 1 - j
    if 0 < i ∧ i < name.length - 1 then String.mk (name.take i) else String.mk name

/-- Model of `"\n".join(paths)`. -/
def join_lines : List String → String
  | [] => ""
  | [s] => s
  | s :: rest => s ++ "\n" ++ join_lines rest

/-! ## Base64

Model of `base64.b64encode(...)` (RFC 4648), byte values taken mod 256. -/

/-- The base64 alphabet. -/
def base64_alphabet : List Char :=
  "ABCDEFGHIJKLMNOPQRSTUVWXYZabcdefghijklmnopqrstuvwxyz0123456789+/".data

/-- The base64 digit for a 6-bit value. -/
def base64_digit (n : Nat) : Char := base64_alphabet.getD n 'A'

/-- Encode bytes three at a time, padding the final group with `=`. -/
def base64_core : List Nat → List Char
  | [] => []
  | [b1] =>
    let x := b1 % 256
    [base64_digit (x / 4), base64_digit (x % 4 * 16), '=', '=']
  | [b1, b2] =>
    let x := b1 % 256
    let y := b2 % 256
    [base64_digit (x / 4), base64_digit (x % 4 * 16 + y / 16), base64_digit (y % 16 * 4), '=']
  | b1 :: b2 :: b3 :: rest =>
    let x := b1 % 256
    let y := b2 % 256
    let z := b3 % 256
    base64_digit (x / 4) :: base64_digit (x % 4 * 16 + y / 16) ::
      base64_digit (y % 16 * 4 + z / 64) :: base64_digit (z % 64) :: base64_core rest

/-- Model of `base64.b64encode(bytes).decode('utf-8')`. -/
def base64_encode (bytes : List Nat) : String := String.mk (base64_core bytes)

/-! ## Data model -/

/-- One item of the MCP response `content` array: either a diagnostic
text item or a binary-carrying resource item (`uri`, `mimeType`, and the
base64 `text` payload). -/
inductive ContentItem where
  | text (text : String)
  | resource (uri mimeType textData : String)
deriving DecidableEq

/-- The response envelope: ordered content items plus the error flag. -/
structure Envelope where
  content : List ContentItem
  isError : Bool
deriving DecidableEq

/-- Whether an item is a binary payload item. -/
def ContentItem.isResourceItem : ContentItem → Bool
  | ContentItem.resource .. => true
  | _ => false

/-- Whether an item is a text item. -/
def ContentItem.isTextItem : ContentItem → Bool
  | ContentItem.text _ => true
  | _ => false

/-- Outcome of `subprocess.run(cmd, capture_output=True, text=True,
timeout=120)`: normal completion with exit status and captured streams,
`subprocess.TimeoutExpired`, or any other exception raised inside the
`try` block (modelled by its message). -/
inductive RunOutcome where
  | completed (returncode : Int) (stdout stderr : String)
  | timedOut
  | exn (message : String)
deriving DecidableEq

/-- The ambient state a single `render_animation` call observes: the
subprocess outcome, the files under the artifact root `media/videos`
(full paths, in the traversal order `Path.rglob` uses), the result of
reading the located output file, and whether `os.unlink` of the scene
file raises. -/
structure RenderEnv where
  run : RunOutcome
  fs : List String
  readResult : Except String (List Nat)
  unlinkErr : Option String

/-- A tracked artifact as seen by `cleanup_old_videos`: its path and its
last-modified time (`st_mtime`). -/
structure VideoFile where
  path : String
  mtime : Nat
deriving DecidableEq

/-! ## Retention manager (`cleanup_old_videos`) -/

/-- Descending last-modified order used by
`video_files.sort(key=lambda p: p.stat().st_mtime, reverse=True)`. -/
def mtime_desc (a b : VideoFile) : Prop := b.mtime ≤ a.mtime

instance : DecidableRel mtime_desc := fun a b => Nat.decLe b.mtime a.mtime

instance : IsTotal VideoFile mtime_desc := ⟨fun a b => Nat.le_total b.mtime a.mtime⟩

instance : IsTrans VideoFile mtime_desc := ⟨fun _ _ _ h1 h2 => Nat.le_trans h2 h1⟩

/-- The retention bound `self.max_videos = 3`. -/
def MAX_VIDEOS : Nat := 3

/-- Model of `cleanup_old_videos`: given the tracked files under the
artifact root and the retention bound, returns `(kept, deleted)`.  If the
count is within the bound nothing is deleted; otherwise the files are
sorted by last-modified time descending and every entry beyond the bound
is deleted. -/
def cleanup_old_videos (video_files : List VideoFile) (maxVideos : Nat) :
    List VideoFile × List VideoFile :=
  if video_files.length ≤ maxVideos then (video_files, [])
  else
    let sorted := List.insertionSort mtime_desc video_files
    (sorted.take maxVideos, sorted.drop maxVideos)

/-! ## Render pipeline constants and helpers -/

/-- `self.media_dir = Path("/app/media")`. -/
def media_dir : String := "/app/media"

/-- `output_dir = self.media_dir / "videos"`. -/
def output_dir : String := media_dir ++ "/videos"

/-- The `timeout=120` argument of `subprocess.run`. -/
def subprocess_timeout : Nat := 120

/-- `unique_id = f"{int(time.time())}_{uuid.uuid4().hex[:8]}"`. -/
def unique_id_of (epoch_time : Nat) (random_hex : String) : String :=
  toString epoch_time ++ "_" ++ random_hex

/-- `unique_scene_name = f"{scene_name}_{unique_id}"`. -/
def unique_scene_name_of (scene_name unique_id : String) : String :=
  scene_name ++ "_" ++ unique_id

/-- The condition `'from manim import' not in code and 'import manim' not in code`. -/
def needs_manim_import (code : String) : Bool :=
  !decide ("from manim import".data <:+: code.data) &&
    !decide ("import manim".data <:+: code.data)

/-- The header written when the code lacks a manim import. -/
def manim_import_header : String := "from manim import *\n\n"

/-- The full text written to the temporary scene file: the optional
manim header followed by the code with every occurrence of
`class <scene_name>` replaced by `class <unique_scene_name>`. -/
def scene_file_content (code scene_name unique_scene_name : String) : String :=
  (if needs_manim_import code then manim_import_header else "") ++
    replaceStr code ("class " ++ scene_name) ("class " ++ unique_scene_name)

/-- `quality_map.get(quality, "-qm")` over the explicit dict literal. -/
def quality_map (quality : String) : String :=
  if quality = "low" then "-ql"
  else if quality = "medium" then "-qm"
  else if quality = "high" then "-qh"
  else if quality = "production" then "-qp"
  else "-qm"

/-- The `--format=...` arguments appended for `gif` and `png`. -/
def format_flags (format : String) : List String :=
  if format = "gif" then ["--format=gif"]
  else if format = "png" then ["--format=png"]
  else []

/-- The full `manim` command line. -/
def build_cmd (quality scene_file unique_scene_name format : String)
    (transparent : Bool) : List String :=
  ["manim", quality_map quality, scene_file, unique_scene_name] ++ format_flags format ++
    (if transparent then ["--transparent"] else [])

/-- `mime_types.get(format, "application/octet-stream")` over the
explicit dict literal. -/
def mime_types (format : String) : String :=
  if format = "mp4" then "video/mp4"
  else if format = "gif" then "image/gif"
  else if format = "png" then "image/png"
  else "application/octet-stream"

/-! ## Artifact locator -/

/-- The ordered `possible_paths` list probed first. -/
def possible_paths (scene_base quality unique_scene_name format : String) : List String :=
  [output_dir ++ "/" ++ scene_base ++ "/" ++ quality ++ "/" ++ unique_scene_name ++ "." ++ format,
   output_dir ++ "/" ++ scene_base ++ "/" ++ unique_scene_name ++ "." ++ format,
   output_dir ++ "/" ++ unique_scene_name ++ "." ++ format]

/-- Strategy 1: the first expected path that exists. -/
def probe_expected_paths (fs paths : List String) : Option String :=
  paths.find? (fun p => fs.contains p)

/-- Whether a file name matches the glob `*<unique_scene_name>*.<format>`:
it ends with the format extension and the rest contains the qualified
scene name. -/
def glob_scene_match (name unique_scene_name format : String) : Bool :=
  let suffix := "." ++ format
  decide (suffix.data <:+ name.data) &&
    decide (unique_scene_name.data <:+: name.data.take (name.data.length - suffix.data.length))

/-- Strategy 2: `output_dir.rglob(f"*{unique_scene_name}*.{format}")`,
first match. -/
def search_scene_pattern (fs : List String) (unique_scene_name format : String) : Option String :=
  fs.find? (fun p => glob_scene_match (basename p) unique_scene_name format)

/-- The extension order of the last-resort loop `for ext in ['gif', 'mp4', 'png']`. -/
def tracked_extension_order : List String := ["gif", "mp4", "png"]

/-- Whether the file name matches the glob `*.<ext>`. -/
def has_tracked_extension (p ext : String) : Bool :=
  decide (("." ++ ext).data <:+ (basename p).data)

/-- Strategy 3: for each tracked extension in order, the first file of
that extension anywhere under the root, regardless of name. -/
def search_any_tracked (fs : List String) : Option String :=
  tracked_extension_order.findSome? (fun ext => fs.find? (fun p => has_tracked_extension p ext))

/-- The complete locator: expected paths, then the scene-name glob, then
the any-tracked-extension fallback; `none` means `ArtifactNotFound`. -/
def find_output_file (fs paths : List String) (unique_scene_name format : String) : Option String :=
  match probe_expected_paths fs paths with
  | some p => some p
  | none =>
    match search_scene_pattern fs unique_scene_name format with
    | some p => some p
    | none => search_any_tracked fs

/-! ## Response builder -/

/-- Envelope of the generic `except Exception` handler (the traceback
text is folded into the message). -/
def exception_envelope (message : String) : Envelope :=
  ⟨[ContentItem.text ("Rendering Error:\n" ++ message)], true⟩

/-- Envelope of the `except subprocess.TimeoutExpired` handler. -/
def timeout_envelope : Envelope :=
  ⟨[ContentItem.text "Animation rendering timed out (max 2 minutes)"], true⟩

/-- Envelope returned when `result.returncode != 0`. -/
def render_failed_envelope (stderr : String) : Envelope :=
  ⟨[ContentItem.text ("Manim rendering failed:\n" ++ stderr)], true⟩

/-- Envelope returned when no output file could be located. -/
def not_found_envelope (stdout : String) (paths : List String) : Envelope :=
  ⟨[ContentItem.text ("Animation rendered but output file not found.\n\nManim output:\n" ++
      stdout ++ "\n\nSearched paths:\n" ++ join_lines paths)], true⟩

/-- The success envelope: one text item then one resource item carrying
the base64 payload with the format-mapped MIME type. -/
def success_envelope (output_file format : String) (bytes : List Nat) : Envelope :=
  ⟨[ContentItem.text ("Animation rendered successfully (" ++ toString bytes.length ++ " bytes)"),
    ContentItem.resource ("file://" ++ output_file) (mime_types format) (base64_encode bytes)],
   false⟩

/-- The located output file, when control reaches the locator. -/
def located_of (env : RenderEnv) (paths : List String) (unique_scene_name format : String) :
    Option String :=
  match env.run with
  | RunOutcome.completed returncode _ _ =>
    if returncode = 0 then find_output_file env.fs paths unique_scene_name format else none
  | _ => none

/-- The envelope produced by `render_animation` for a given environment,
following the branch structure of the source. -/
def envelope_of (env : RenderEnv) (paths : List String) (unique_scene_name format : String) :
    Envelope :=
  match env.run with
  | RunOutcome.exn message => exception_envelope message
  | RunOutcome.timedOut => timeout_envelope
  | RunOutcome.completed returncode stdout stderr =>
    if returncode ≠ 0 then render_failed_envelope stderr
    else
      match find_output_file env.fs paths unique_scene_name format with
      | none => not_found_envelope stdout paths
      | some f =>
        match env.readResult with
        | Except.error message => exception_envelope message
        | Except.ok bytes =>
          match env.unlinkErr with
          | some message => exception_envelope message
          | none => success_envelope f format bytes

/-- Everything observable about one `render_animation` call: the text
written to the scene file, the command line, the timeout handed to
`subprocess.run`, the located artifact, and the returned envelope. -/
structure RenderTrace where
  scene_file_content : String
  cmd : List String
  timeout_seconds : Nat
  located : Option String
  envelope : Envelope
deriving DecidableEq

/-- Model of `ManimMCPServer.render_animation`. -/
def render_animation (code scene_name quality format : String) (transparent : Bool)
    (epoch_time : Nat) (random_hex scene_file : String) (env : RenderEnv) : RenderTrace :=
  let uniq := unique_scene_name_of scene_name (unique_id_of epoch_time random_hex)
  let paths := possible_paths (stem_of scene_file) quality uniq format
  { scene_file_content := scene_file_content code scene_name uniq,
    cmd := build_cmd quality scene_file uniq format transparent,
    timeout_seconds := subprocess_timeout,
    located := located_of env paths uniq format,
    envelope := envelope_of env paths uniq format }

/-- The raw `arguments` dictionary of a `tools/call` request, each field
present or absent. -/
structure CallArguments where
  code : Option String
  scene_name : Option String
  quality : Option String
  format : Option String
  transparent : Option Bool

/-- Model of `ManimMCPServer.call_tool`: every missing field is replaced
by its `arguments.get(...)` default and `render_animation` is invoked. -/
def call_tool (name : String) (args : CallArguments) (epoch_time : Nat)
    (random_hex scene_file : String) (env : RenderEnv) : RenderTrace :=
  if name = "render_animation" then
    render_animation (args.code.getD "") (args.scene_name.getD "MainScene")
      (args.quality.getD "medium") (args.format.getD "mp4") (args.transparent.getD false)
      epoch_time random_hex scene_file env
  else
    { scene_file_content := "", cmd := [], timeout_seconds := 0, located := none,
      envelope := ⟨[ContentItem.text ("Unknown tool: " ++ name)], true⟩ }

/-! ## Helper lemmas -/

/-- Characters of a concatenation. -/
theorem string_data_append (a b : String) : (a ++ b).data = a.data ++ b.data := rfl

/-- If a concatenation occurs inside a list, so does its right part. -/
theorem occurs_of_append_occurs {a b s : List Char} (h : (a ++ b) <:+: s) : b <:+: s := by
  obtain ⟨t1, t2, ht⟩ := h
  exact ⟨t1 ++ a, t2, by simpa [List.append_assoc] using ht⟩

/-- When the pattern occurs nowhere in the text, the bounded replacement
is the identity (for any fuel). -/
theorem replaceGo_no_occurrence (pat repl : List Char) (fuel : Nat) (s : List Char)
    (h : ¬ pat <:+: s) : replaceGo pat repl fuel s = s := by
  induction fuel generalizing s with
  | zero => cases s <;> rfl
  | succ n ih =>
    cases s with
    | nil => rfl
    | cons c rest =>
      have hp : ¬ pat <+: c :: rest := fun hp => h hp.isInfix
      have hr : ¬ pat <:+: rest := fun hr => h (hr.trans (List.suffix_cons c rest).isInfix)
      simp [replaceGo, hp, ih rest hr]

/-- When the pattern occurs nowhere in the string, `str.replace` is the
identity. -/
theorem replaceStr_no_occurrence (s pat repl : String) (h : ¬ pat.data <:+: s.data) :
    replaceStr s pat repl = s := by
  unfold replaceStr
  rw [replaceGo_no_occurrence pat.data repl.data s.data.length s.data h]

/-! ## Claim theorems -/

/-- C2: for an artifact root holding more than `maxVideos` tracked files
with pairwise distinct last-modified times, after `cleanup_old_videos`
runs exactly the `maxVideos` most recently modified files remain (they
and the deleted files partition the originals, and every deleted file is
older than every kept one); if the count is at most `maxVideos`, no file
is deleted. -/
theorem retention_keeps_most_recent (files : List VideoFile) (maxVideos : Nat)
    (hdistinct : files.Pairwise (fun a b => a.mtime ≠ b.mtime)) :
    (files.length ≤ maxVideos → cleanup_old_videos files maxVideos = (files, [])) ∧
    (maxVideos < files.length →
      (cleanup_old_videos files maxVideos).1.length = maxVideos ∧
      ((cleanup_old_videos files maxVideos).1 ++ (cleanup_old_videos files maxVideos).2).Perm
        files ∧
      ∀ g ∈ (cleanup_old_videos files maxVideos).1,
        ∀ f ∈ (cleanup_old_videos files maxVideos).2, f.mtime < g.mtime) := by
  constructor
  · intro hle
    simp [cleanup_old_videos, hle]
  · intro hgt
    have hnle : ¬ files.length ≤ maxVideos := Nat.not_le.mpr hgt
    have hcl : cleanup_old_videos files maxVideos =
        ((List.insertionSort mtime_desc files).take maxVideos,
         (List.insertionSort mtime_desc files).drop maxVideos) := by
      simp [cleanup_old_videos, hnle]
    have hperm : (List.insertionSort mtime_desc files).Perm files :=
      List.perm_insertionSort _ _
    have hsorted : (List.insertionSort mtime_desc files).Pairwise mtime_desc :=
      List.sorted_insertionSort _ _
    have hdist2 : (List.insertionSort mtime_desc files).Pairwise
        (fun a b => a.mtime ≠ b.mtime) :=
      (hperm.pairwise_iff (fun h => Ne.symm h)).mpr hdistinct
    have hstrict : (List.insertionSort mtime_desc files).Pairwise
        (fun a b => b.mtime < a.mtime) :=
      (hsorted.and hdist2).imp fun hx => Nat.lt_of_le_of_ne hx.1 (Ne.symm hx.2)
    rw [hcl]
    refine ⟨?_, ?_, ?_⟩
    · rw [List.length_take, hperm.length_eq]
      exact Nat.min_eq_left (Nat.le_of_lt hgt)
    · rw [List.take_append_drop]
      exact hperm
    · intro g hg f hf
      have happ : ((List.insertionSort mtime_desc files).take maxVideos ++
          (List.insertionSort mtime_desc files).drop maxVideos).Pairwise
          (fun a b => b.mtime < a.mtime) := by
        rw [List.take_append_drop]
        exact hstrict
      exact (List.pairwise_append.mp happ).2.2 g hg f hf

/-- C2 witness: 5 files with distinct modification times and bound 3
leave exactly the 3 most recent; kept and deleted partition the 5. -/
theorem retention_keeps_most_recent_witness :
    (cleanup_old_videos [⟨"a", 5⟩, ⟨"b", 1⟩, ⟨"c", 4⟩, ⟨"d", 2⟩, ⟨"e", 3⟩] 3).1.length = 3 ∧
    ((cleanup_old_videos [⟨"a", 5⟩, ⟨"b", 1⟩, ⟨"c", 4⟩, ⟨"d", 2⟩, ⟨"e", 3⟩] 3).1 ++
      (cleanup_old_videos [⟨"a", 5⟩, ⟨"b", 1⟩, ⟨"c", 4⟩, ⟨"d", 2⟩, ⟨"e", 3⟩] 3).2).Perm
      [⟨"a", 5⟩, ⟨"b", 1⟩, ⟨"c", 4⟩, ⟨"d", 2⟩, ⟨"e", 3⟩] :=
  ⟨((retention_keeps_most_recent _ 3 (by decide)).2 (by decide)).1,
   ((retention_keeps_most_recent _ 3 (by decide)).2 (by decide)).2.1⟩

/-- C3: for every request and every outcome of the external process,
filesystem scan, file read and unlink (including arbitrary exceptions,
which the handler catches), `render_animation` returns an envelope whose
content list is nonempty and consists only of text and resource items;
totality of the model captures that the Python method never raises. -/
theorem render_never_raises (code scene_name quality format : String) (transparent : Bool)
    (epoch_time : Nat) (random_hex scene_file : String) (env : RenderEnv) :
    (render_animation code scene_name quality format transparent epoch_time random_hex
      scene_file env).envelope.content ≠ [] ∧
    ∀ item ∈ (render_animation code scene_name quality format transparent epoch_time random_hex
      scene_file env).envelope.content,
      item.isTextItem = true ∨ item.isResourceItem = true := by
  obtain ⟨run, fs, readResult, unlinkErr⟩ := env
  cases run with
  | exn m =>
    simp [render_animation, envelope_of, exception_envelope, ContentItem.isTextItem]
  | timedOut =>
    simp [render_animation, envelope_of, timeout_envelope, ContentItem.isTextItem]
  | completed rc out err =>
    by_cases hrc : rc = 0
    · subst hrc
      cases hfind : find_output_file fs
          (possible_paths (stem_of scene_file) quality
            (unique_scene_name_of scene_name (unique_id_of epoch_time random_hex)) format)
          (unique_scene_name_of scene_name (unique_id_of epoch_time random_hex)) format with
      | none =>
        simp [render_animation, envelope_of, hfind, not_found_envelope, ContentItem.isTextItem]
      | some f =>
        cases readResult with
        | error m =>
          simp [render_animation, envelope_of, hfind, exception_envelope, ContentItem.isTextItem]
        | ok bytes =>
          cases unlinkErr with
          | some m =>
            simp [render_animation, envelope_of, hfind, exception_envelope,
              ContentItem.isTextItem]
          | none =>
            simp [render_animation, envelope_of, hfind, success_envelope,
              ContentItem.isTextItem, ContentItem.isResourceItem]
    · simp [render_animation, envelope_of, hrc, render_failed_envelope, ContentItem.isTextItem]

/-- C3 witness: a concrete call whose subprocess raised still yields a
nonempty envelope. -/
theorem render_never_raises_witness :
    (render_animation "c" "MainScene" "medium" "mp4" false 0 "abcd1234" "/tmp/t.py"
      ⟨RunOutcome.exn "boom", [], Except.error "", none⟩).envelope.content ≠ [] :=
  (render_never_raises "c" "MainScene" "medium" "mp4" false 0 "abcd1234" "/tmp/t.py"
    ⟨RunOutcome.exn "boom", [], Except.error "", none⟩).1

/-- C4: whenever the renderer exits with a non-zero code, the returned
envelope is an error, its single diagnostic text item contains the
captured stderr verbatim, and it carries no binary payload item. -/
theorem render_failed_reports_stderr (code scene_name quality format : String)
    (transparent : Bool) (epoch_time : Nat) (random_hex scene_file : String)
    (env : RenderEnv) (returncode : Int) (stdout stderr : String)
    (hrun : env.run = RunOutcome.completed returncode stdout stderr)
    (hrc : returncode ≠ 0) :
    (render_animation code scene_name quality format transparent epoch_time random_hex
      scene_file env).envelope.isError = true ∧
    (∃ t, (render_animation code scene_name quality format transparent epoch_time random_hex
        scene_file env).envelope.content = [ContentItem.text t] ∧ stderr.data <:+: t.data) ∧
    ∀ item ∈ (render_animation code scene_name quality format transparent epoch_time random_hex
      scene_file env).envelope.content, item.isResourceItem = false := by
  obtain ⟨run, fs, readResult, unlinkErr⟩ := env
  simp only at hrun
  subst hrun
  refine ⟨?_, ⟨"Manim rendering failed:\n" ++ stderr, ?_, ?_⟩, ?_⟩
  · simp [render_animation, envelope_of, hrc, render_failed_envelope]
  · simp [render_animation, envelope_of, hrc, render_failed_envelope]
  · exact ⟨"Manim rendering failed:\n".data, [], by simp [string_data_append]⟩
  · simp [render_animation, envelope_of, hrc, render_failed_envelope, ContentItem.isResourceItem]

/-- C4 witness: a failing exit code 1 with stderr `boom` produces the
error envelope containing `boom`. -/
theorem render_failed_reports_stderr_witness :
    (render_animation "c" "MainScene" "medium" "mp4" false 0 "abcd1234" "/tmp/t.py"
      ⟨RunOutcome.completed 1 "" "boom", [], Except.error "", none⟩).envelope.isError = true :=
  (render_failed_reports_stderr "c" "MainScene" "medium" "mp4" false 0 "abcd1234" "/tmp/t.py"
    ⟨RunOutcome.completed 1 "" "boom", [], Except.error "", none⟩ 1 "" "boom" rfl
    (by decide)).1

/-- C5: the subprocess timeout handed to `subprocess.run` is exactly 120
seconds, and when it fires the call returns an error envelope carrying
the timeout diagnostic and no binary payload item (the child process is
killed by `subprocess.run` itself before `TimeoutExpired` propagates). -/
theorem render_timeout_behavior (code scene_name quality format : String) (transparent : Bool)
    (epoch_time : Nat) (random_hex scene_file : String) (env : RenderEnv) :
    subprocess_timeout = 120 ∧
    (render_animation code scene_name quality format transparent epoch_time random_hex
      scene_file env).timeout_seconds = 120 ∧
    (env.run = RunOutcome.timedOut →
      (render_animation code scene_name quality format transparent epoch_time random_hex
        scene_file env).envelope.isError = true ∧
      (render_animation code scene_name quality format transparent epoch_time random_hex
        scene_file env).envelope.content =
        [ContentItem.text "Animation rendering timed out (max 2 minutes)"] ∧
      ∀ item ∈ (render_animation code scene_name quality format transparent epoch_time
        random_hex scene_file env).envelope.content, item.isResourceItem = false) := by
  obtain ⟨run, fs, readResult, unlinkErr⟩ := env
  refine ⟨rfl, rfl, ?_⟩
  intro hrun
  simp only at hrun
  subst hrun
  simp [render_animation, envelope_of, timeout_envelope, ContentItem.isResourceItem]

/-- C5 witness: a timed-out run at concrete inputs yields the timeout
error envelope. -/
theorem render_timeout_behavior_witness :
    (render_animation "c" "MainScene" "medium" "mp4" false 0 "abcd1234" "/tmp/t.py"
      ⟨RunOutcome.timedOut, [], Except.error "", none⟩).envelope.isError = true :=
  ((render_timeout_behavior "c" "MainScene" "medium" "mp4" false 0 "abcd1234" "/tmp/t.py"
    ⟨RunOutcome.timedOut, [], Except.error "", none⟩).2.2 rfl).1

/-- C1: after a zero-exit render, the locator tries the three strategies
in order, first match winning: the ordered expected paths, then the
recursive scene-name-and-extension glob, then the first file of any
tracked extension; when all three fail, the call returns an error
envelope with no binary item. -/
theorem locator_resolution_order (code scene_name quality format : String) (transparent : Bool)
    (epoch_time : Nat) (random_hex scene_file stdout stderr : String) (env : RenderEnv)
    (hrun : env.run = RunOutcome.completed 0 stdout stderr) :
    (∀ p, probe_expected_paths env.fs
        (possible_paths (stem_of scene_file) quality
          (unique_scene_name_of scene_name (unique_id_of epoch_time random_hex)) format) =
          some p →
      (render_animation code scene_name quality format transparent epoch_time random_hex
        scene_file env).located = some p) ∧
    (probe_expected_paths env.fs
        (possible_paths (stem_of scene_file) quality
          (unique_scene_name_of scene_name (unique_id_of epoch_time random_hex)) format) =
        none →
      ∀ p, search_scene_pattern env.fs
          (unique_scene_name_of scene_name (unique_id_of epoch_time random_hex)) format =
          some p →
        (render_animation code scene_name quality format transparent epoch_time random_hex
          scene_file env).located = some p) ∧
    (probe_expected_paths env.fs
        (possible_paths (stem_of scene_file) quality
          (unique_scene_name_of scene_name (unique_id_of epoch_time random_hex)) format) =
        none →
      search_scene_pattern env.fs
          (unique_scene_name_of scene_name (unique_id_of epoch_time random_hex)) format =
          none →
      (render_animation code scene_name quality format transparent epoch_time random_hex
        scene_file env).located = search_any_tracked env.fs) ∧
    (probe_expected_paths env.fs
        (possible_paths (stem_of scene_file) quality
          (unique_scene_name_of scene_name (unique_id_of epoch_time random_hex)) format) =
        none →
      search_scene_pattern env.fs
          (unique_scene_name_of scene_name (unique_id_of epoch_time random_hex)) format =
          none →
      search_any_tracked env.fs = none →
      (render_animation code scene_name quality format transparent epoch_time random_hex
        scene_file env).located = none ∧
      (render_animation code scene_name quality format transparent epoch_time random_hex
        scene_file env).envelope.isError = true ∧
      ∀ item ∈ (render_animation code scene_name quality format transparent epoch_time
        random_hex scene_file env).envelope.content, item.isResourceItem = false) := by
  obtain ⟨run, fs, readResult, unlinkErr⟩ := env
  simp only at hrun
  subst hrun
  refine ⟨?_, ?_, ?_, ?_⟩
  · intro p hp
    simp [render_animation, located_of, find_output_file, hp]
  · intro h1 p hp
    simp [render_animation, located_of, find_output_file, h1, hp]
  · intro h1 h2
    simp [render_animation, located_of, find_output_file, h1, h2]
  · intro h1 h2 h3
    refine ⟨?_, ?_, ?_⟩ <;>
      simp [render_animation, located_of, envelope_of, find_output_file, h1, h2, h3,
        not_found_envelope, ContentItem.isResourceItem]

/-- C1 witness: with the expected paths absent, the recursive scene-name
glob resolves the artifact. -/
theorem locator_resolution_order_witness :
    (render_animation "c" "MainScene" "medium" "mp4" false 0 "abcd1234" "/tmp/t.py"
      ⟨RunOutcome.completed 0 "" "",
       ["/app/media/videos/scene123/MainScene_0_abcd1234.mp4"],
       Except.error "", none⟩).located =
      some "/app/media/videos/scene123/MainScene_0_abcd1234.mp4" :=
  (locator_resolution_order "c" "MainScene" "medium" "mp4" false 0 "abcd1234" "/tmp/t.py" "" ""
    ⟨RunOutcome.completed 0 "" "",
     ["/app/media/videos/scene123/MainScene_0_abcd1234.mp4"],
     Except.error "", none⟩ rfl).2.1 (by decide)
    "/app/media/videos/scene123/MainScene_0_abcd1234.mp4" (by decide)

/-- C6 (code-bug evidence): a `tools/call` whose arguments lack the
required `code` field is not rejected; `call_tool` substitutes the empty
string, the full manim command line is still built with the documented
defaults (scene `MainScene`, quality `-qm`, format `mp4`, opaque
transparency), the scene file holding only the injected import header is
written, and the spawned subprocess outcome is consumed into a
`RenderFailed`-style envelope rather than any `InvalidRequest` error. -/
theorem missing_code_is_defaulted_and_spawned :
    (call_tool "render_animation" ⟨none, none, none, none, none⟩ 0 "abcd1234" "/tmp/t.py"
      ⟨RunOutcome.completed 1 "" "ValueError: no scenes", [], Except.error "", none⟩).cmd =
      ["manim", "-qm", "/tmp/t.py", "MainScene_0_abcd1234"] ∧
    (call_tool "render_animation" ⟨none, none, none, none, none⟩ 0 "abcd1234" "/tmp/t.py"
      ⟨RunOutcome.completed 1 "" "ValueError: no scenes", [], Except.error "",
        none⟩).scene_file_content = "from manim import *\n\n" ∧
    (call_tool "render_animation" ⟨none, none, none, none, none⟩ 0 "abcd1234" "/tmp/t.py"
      ⟨RunOutcome.completed 1 "" "ValueError: no scenes", [], Except.error "", none⟩).envelope =
      ⟨[ContentItem.text "Manim rendering failed:\nValueError: no scenes"], true⟩ := by
  refine ⟨by decide, by decide, by decide⟩

/-- C7 counterexample: for a code body in which the scene name does not
appear, the subprocess command line still receives the qualified scene
name, not the unqualified one the claim asserts. -/
theorem qualified_name_always_used_counterexample :
    ¬ ("MainScene".data <:+: "print(1)".data) ∧
    (render_animation "print(1)" "MainScene" "medium" "mp4" false 0 "abcd1234" "/tmp/t.py"
      ⟨RunOutcome.completed 0 "" "", [], Except.error "", none⟩).cmd =
      ["manim", "-qm", "/tmp/t.py", "MainScene_0_abcd1234"] ∧
    "MainScene_0_abcd1234" ≠ "MainScene" := by
  refine ⟨by decide, by decide, by decide⟩

/-- C7 amended: the identifier is `<epoch-seconds>_<hex>`, the written
code substitutes every occurrence of `class <scene>` with the qualified
name, the rewrite is a no-op when the scene name does not appear — but
the qualified scene name is always the one passed on the subprocess
command line, matching or not. -/
theorem job_namer_behavior (code scene_name quality format : String) (transparent : Bool)
    (epoch_time : Nat) (random_hex scene_file : String) (env : RenderEnv) :
    unique_id_of epoch_time random_hex = toString epoch_time ++ "_" ++ random_hex ∧
    (render_animation code scene_name quality format transparent epoch_time random_hex
      scene_file env).scene_file_content =
      (if needs_manim_import code then manim_import_header else "") ++
        replaceStr code ("class " ++ scene_name)
          ("class " ++ unique_scene_name_of scene_name (unique_id_of epoch_time random_hex)) ∧
    (¬ (scene_name.data <:+: code.data) →
      replaceStr code ("class " ++ scene_name)
        ("class " ++ unique_scene_name_of scene_name (unique_id_of epoch_time random_hex)) =
        code) ∧
    (render_animation code scene_name quality format transparent epoch_time random_hex
      scene_file env).cmd[3]? =
      some (unique_scene_name_of scene_name (unique_id_of epoch_time random_hex)) := by
  refine ⟨rfl, rfl, ?_, ?_⟩
  · intro h
    apply replaceStr_no_occurrence
    intro hcontra
    have hsplit : ("class ".data ++ scene_name.data) <:+: code.data := by
      rw [← string_data_append]
      exact hcontra
    exact h (occurs_of_append_occurs hsplit)
  · simp [render_animation, build_cmd]

/-- C7 amended witness: with no occurrence of the scene name, the
rewrite is a no-op and entry 3 of the command line is the qualified
name. -/
theorem job_namer_behavior_witness :
    replaceStr "print(1)" ("class " ++ "MainScene")
      ("class " ++ unique_scene_name_of "MainScene" (unique_id_of 0 "abcd1234")) = "print(1)" ∧
    (render_animation "print(1)" "MainScene" "medium" "mp4" false 0 "abcd1234" "/tmp/t.py"
      ⟨RunOutcome.completed 0 "" "", [], Except.error "", none⟩).cmd[3]? =
      some (unique_scene_name_of "MainScene" (unique_id_of 0 "abcd1234")) :=
  ⟨(job_namer_behavior "print(1)" "MainScene" "medium" "mp4" false 0 "abcd1234" "/tmp/t.py"
      ⟨RunOutcome.completed 0 "" "", [], Except.error "", none⟩).2.2.1 (by decide),
   (job_namer_behavior "print(1)" "MainScene" "medium" "mp4" false 0 "abcd1234" "/tmp/t.py"
      ⟨RunOutcome.completed 0 "" "", [], Except.error "", none⟩).2.2.2⟩

/-- C8 counterexample: a code body without a manim import is handed to
the renderer with a prepended `from manim import *` header, so the text
differs from the caller's code by more than the symbol substitution. -/
theorem manim_import_header_added_counterexample :
    (render_animation "print(1)" "MainScene" "medium" "mp4" false 0 "abcd1234" "/tmp/t.py"
      ⟨RunOutcome.completed 0 "" "", [], Except.error "", none⟩).scene_file_content ≠
      replaceStr "print(1)" ("class " ++ "MainScene")
        ("class " ++ unique_scene_name_of "MainScene" (unique_id_of 0 "abcd1234")) ∧
    (render_animation "print(1)" "MainScene" "medium" "mp4" false 0 "abcd1234" "/tmp/t.py"
      ⟨RunOutcome.completed 0 "" "", [], Except.error "", none⟩).scene_file_content =
      "from manim import *\n\nprint(1)" := by
  refine ⟨by decide, by decide⟩

/-- C8 amended: the text handed to the renderer is exactly the
scene-symbol substitution of the caller's code when the code already
contains `from manim import` or `import manim`; otherwise it is that
substitution with the import header `from manim import *` prepended. -/
theorem code_transform_amended (code scene_name quality format : String) (transparent : Bool)
    (epoch_time : Nat) (random_hex scene_file : String) (env : RenderEnv) :
    (("from manim import".data <:+: code.data) ∨ ("import manim".data <:+: code.data) →
      (render_animation code scene_name quality format transparent epoch_time random_hex
        scene_file env).scene_file_content =
        replaceStr code ("class " ++ scene_name)
          ("class " ++ unique_scene_name_of scene_name (unique_id_of epoch_time random_hex))) ∧
    (¬ ("from manim import".data <:+: code.data) →
      ¬ ("import manim".data <:+: code.data) →
      (render_animation code scene_name quality format transparent epoch_time random_hex
        scene_file env).scene_file_content =
        manim_import_header ++ replaceStr code ("class " ++ scene_name)
          ("class " ++ unique_scene_name_of scene_name (unique_id_of epoch_time random_hex))) := by
  constructor
  · intro h
    have hni : needs_manim_import code = false := by
      rcases h with h | h <;> simp [needs_manim_import, h]
    simp [render_animation, scene_file_content, hni]
  · intro h1 h2
    have hni : needs_manim_import code = true := by
      simp [needs_manim_import, h1, h2]
    simp [render_animation, scene_file_content, hni]

/-- C8 amended witness: code that already imports manim is handed over
with nothing but the symbol substitution applied. -/
theorem code_transform_amended_witness :
    (render_animation "import manim\nclass MainScene(Scene): pass" "MainScene" "medium" "mp4"
      false 0 "abcd1234" "/tmp/t.py"
      ⟨RunOutcome.completed 0 "" "", [], Except.error "", none⟩).scene_file_content =
      replaceStr "import manim\nclass MainScene(Scene): pass" ("class " ++ "MainScene")
        ("class " ++ unique_scene_name_of "MainScene" (unique_id_of 0 "abcd1234")) :=
  (code_transform_amended "import manim\nclass MainScene(Scene): pass" "MainScene" "medium"
    "mp4" false 0 "abcd1234" "/tmp/t.py"
    ⟨RunOutcome.completed 0 "" "", [], Except.error "", none⟩).1 (Or.inr (by decide))

/-- C9: a successful render (exit zero, artifact located, bytes read)
returns a non-error envelope of exactly one text item followed by one
binary resource item whose MIME type is the enumerated table's image of
the format (mp4 to video/mp4, gif to image/gif, png to image/png) and
whose payload is the base64 encoding of the file bytes. -/
theorem success_envelope_structure (code scene_name quality format : String)
    (transparent : Bool) (epoch_time : Nat)
    (random_hex scene_file stdout stderr f : String) (bytes : List Nat) (env : RenderEnv)
    (hrun : env.run = RunOutcome.completed 0 stdout stderr)
    (hfound : find_output_file env.fs
      (possible_paths (stem_of scene_file) quality
        (unique_scene_name_of scene_name (unique_id_of epoch_time random_hex)) format)
      (unique_scene_name_of scene_name (unique_id_of epoch_time random_hex)) format = some f)
    (hread : env.readResult = Except.ok bytes)
    (hunlink : env.unlinkErr = none) :
    (render_animation code scene_name quality format transparent epoch_time random_hex
      scene_file env).envelope.isError = false ∧
    (render_animation code scene_name quality format transparent epoch_time random_hex
      scene_file env).envelope.content =
      [ContentItem.text ("Animation rendered successfully (" ++ toString bytes.length ++
        " bytes)"),
       ContentItem.resource ("file://" ++ f) (mime_types format) (base64_encode bytes)] ∧
    mime_types "mp4" = "video/mp4" ∧
    mime_types "gif" = "image/gif" ∧
    mime_types "png" = "image/png" := by
  obtain ⟨run, fs, readResult, unlinkErr⟩ := env
  simp only at hrun hread hunlink hfound
  subst hrun
  subst hread
  subst hunlink
  refine ⟨?_, ?_, by decide, by decide, by decide⟩ <;>
    simp [render_animation, envelope_of, hfound, success_envelope]

/-- C9 witness: a concrete successful render returns a non-error
envelope. -/
theorem success_envelope_structure_witness :
    (render_animation "c" "MainScene" "medium" "mp4" false 0 "abcd1234" "/tmp/t.py"
      ⟨RunOutcome.completed 0 "" "",
       ["/app/media/videos/t/medium/MainScene_0_abcd1234.mp4"],
       Except.ok [77, 97, 110], none⟩).envelope.isError = false :=
  (success_envelope_structure "c" "MainScene" "medium" "mp4" false 0 "abcd1234" "/tmp/t.py"
    "" "" "/app/media/videos/t/medium/MainScene_0_abcd1234.mp4" [77, 97, 110]
    ⟨RunOutcome.completed 0 "" "",
     ["/app/media/videos/t/medium/MainScene_0_abcd1234.mp4"],
     Except.ok [77, 97, 110], none⟩ rfl (by decide) rfl rfl).1

/-- C10: a quality outside the enumerated set falls back to the medium
flag `-qm`, an unrecognized format adds no `--format` flag and maps to
the `application/octet-stream` MIME fallback, and such a request is not
rejected: a successful run still returns a non-error envelope. -/
theorem unrecognized_values_fallback (code scene_name quality format : String)
    (transparent : Bool) (epoch_time : Nat)
    (random_hex scene_file stdout stderr f : String) (bytes : List Nat) (env : RenderEnv)
    (hq : quality ∉ (["low", "medium", "high", "production"] : List String))
    (hf : format ∉ (["mp4", "gif", "png"] : List String))
    (hrun : env.run = RunOutcome.completed 0 stdout stderr)
    (hfound : find_output_file env.fs
      (possible_paths (stem_of scene_file) quality
        (unique_scene_name_of scene_name (unique_id_of epoch_time random_hex)) format)
      (unique_scene_name_of scene_name (unique_id_of epoch_time random_hex)) format = some f)
    (hread : env.readResult = Except.ok bytes)
    (hunlink : env.unlinkErr = none) :
    quality_map quality = "-qm" ∧
    (render_animation code scene_name quality format transparent epoch_time random_hex
      scene_file env).cmd =
      ["manim", "-qm", scene_file,
        unique_scene_name_of scene_name (unique_id_of epoch_time random_hex)] ++
        (if transparent then ["--transparent"] else []) ∧
    mime_types format = "application/octet-stream" ∧
    (render_animation code scene_name quality format transparent epoch_time random_hex
      scene_file env).envelope.isError = false := by
  simp only [List.mem_cons, List.not_mem_nil, or_false, not_or] at hq hf
  obtain ⟨hq1, hq2, hq3, hq4⟩ := hq
  obtain ⟨hf1, hf2, hf3⟩ := hf
  obtain ⟨run, fs, readResult, unlinkErr⟩ := env
  simp only at hrun hread hunlink hfound
  subst hrun
  subst hread
  subst hunlink
  refine ⟨?_, ?_, ?_, ?_⟩
  · simp [quality_map, hq1, hq2, hq3, hq4]
  · simp [render_animation, build_cmd, format_flags, quality_map, hq1, hq2, hq3, hq4, hf2, hf3]
  · simp [mime_types, hf1, hf2, hf3]
  · simp [render_animation, envelope_of, hfound, success_envelope]

/-- C10 witness: quality `ultra` and format `webm` fall through to the
defaults and the render still succeeds. -/
theorem unrecognized_values_fallback_witness :
    quality_map "ultra" = "-qm" ∧ mime_types "webm" = "application/octet-stream" :=
  ⟨(unrecognized_values_fallback "c" "MainScene" "ultra" "webm" false 0 "abcd1234" "/tmp/t.py"
      "" "" "/app/media/videos/t/ultra/MainScene_0_abcd1234.webm" []
      ⟨RunOutcome.completed 0 "" "",
       ["/app/media/videos/t/ultra/MainScene_0_abcd1234.webm"],
       Except.ok [], none⟩ (by decide) (by decide) rfl (by decide) rfl rfl).1,
   (unrecognized_values_fallback "c" "MainScene" "ultra" "webm" false 0 "abcd1234" "/tmp/t.py"
      "" "" "/app/media/videos/t/ultra/MainScene_0_abcd1234.webm" []
      ⟨RunOutcome.completed 0 "" "",
       ["/app/media/videos/t/ultra/MainScene_0_abcd1234.webm"],
       Except.ok [], none⟩ (by decide) (by decide) rfl (by decide) rfl rfl).2.2.1⟩

end ManimMCP
